import Mathlib

/-!
Shallow embedding of the product configurator core (main.py, data_layer.py,
db.py): the relational data model, the data-access queries, the
available-options evaluation and the compatibility-rule admission check,
together with theorems about these operations.

Conventions of the embedding:
* store-assigned UUIDs are modelled as natural numbers;
* SQL numeric/Decimal values are modelled as rationals;
* each data-layer query is a pure function over an explicit store state;
* execute_query (db.py) commits after every statement, so every data-layer
  call contributes an exec event followed by a commit event to the trace of
  the operation that issued it.
-/

namespace Configurator

/-- A JSON value as produced by the endpoints.  The representation of a
number is tracked: a value fetched from the store keeps its Decimal
(fixed-point) representation, while a value passed through the Python
float() conversion becomes a binary float.  Only the representation kind is
modelled; the rounding performed by float() is not, so the carried rational
is the exact source value. -/
inductive JVal where
  | s (v : String)
  | decimal (v : Rat)
  | float (v : Rat)
  | id (v : Nat)
  deriving DecidableEq

/-- A returned JSON object, as an ordered list of key/value pairs. -/
abbrev Entry := List (String × JVal)

/-- One row of the ProductTemplate table. -/
structure TemplateRow where
  template_id : Nat
  str_id : String
  name : String
  base_price : Rat
  deriving DecidableEq

/-- One row of the OptionCategory table. -/
structure CategoryRow where
  category_id : Nat
  template_id : Nat
  str_id : String
  name : String
  deriving DecidableEq

/-- One row of the OptionChoice table. -/
structure ChoiceRow where
  choice_id : Nat
  category_id : Nat
  str_id : String
  name : String
  price_delta : Rat
  deriving DecidableEq

/-- One row of the CompatibilityRule table.  rule_type is stored as a free
string, as in the database. -/
structure RuleRow where
  rule_id : Nat
  rule_type : String
  primary_choice_id : Nat
  secondary_choice_id : Nat
  deriving DecidableEq

/-- The entity store: the four tables.

Modelled from the spec: the SQL schema itself is not among the source
files; per the spec data model, string identifiers are unique only within
their parent scope (template str_id globally, category str_id within its
template, choice str_id within its category), so the tables here are plain
row lists and no template-wide uniqueness of choice str_ids is imposed. -/
structure DB where
  templates : List TemplateRow
  categories : List CategoryRow
  choices : List ChoiceRow
  rules : List RuleRow
  deriving DecidableEq

/-- data_layer.find_target_choices: all choices of the category with the
given str_id inside the template with the given str_id (the SQL join of
OptionChoice, OptionCategory and ProductTemplate). -/
def findTargetChoices (db : DB) (templateStrId categoryStrId : String) : List ChoiceRow :=
  db.choices.filter (fun oc =>
    db.categories.any (fun cat =>
      oc.category_id == cat.category_id && cat.str_id == categoryStrId &&
        db.templates.any (fun pt =>
          cat.template_id == pt.template_id && pt.str_id == templateStrId)))

/-- data_layer.find_selected_choice_uuids: the choice_id of every choice
whose (category str_id, choice str_id) pair occurs in the supplied pairs.
The lookup joins only OptionChoice and OptionCategory: it is not scoped to
any template. -/
def findSelectedChoiceUuids (db : DB) (pairs : List (String × String)) : List Nat :=
  (db.choices.filter (fun oc =>
    db.categories.any (fun cat =>
      oc.category_id == cat.category_id &&
        pairs.any (fun p => p.1 == cat.str_id && p.2 == oc.str_id)))).map
    ChoiceRow.choice_id

/-- data_layer.find_incompatible_uuids: the union of both edge directions of
INCOMPATIBLE_WITH rules touching a selected choice.  The SQL UNION removes
duplicates; only membership in the result is ever used, so the result is
modelled as the concatenation of the two directed queries. -/
def findIncompatibleUuids (db : DB) (selected : List Nat) : List Nat :=
  ((db.rules.filter (fun r =>
      r.rule_type == "INCOMPATIBLE_WITH" && selected.contains r.secondary_choice_id)).map
    RuleRow.primary_choice_id)
  ++
  ((db.rules.filter (fun r =>
      r.rule_type == "INCOMPATIBLE_WITH" && selected.contains r.primary_choice_id)).map
    RuleRow.secondary_choice_id)

/-- data_layer.find_required_choices: for every REQUIRES rule whose primary
choice is selected, the pair (secondary_choice_id, category_id of the
secondary choice); the join on OptionChoice drops rules whose secondary
choice row does not exist. -/
def findRequiredChoices (db : DB) (selected : List Nat) : List (Nat × Nat) :=
  (db.rules.filter (fun r =>
    r.rule_type == "REQUIRES" && selected.contains r.primary_choice_id)).flatMap
    (fun r =>
      (db.choices.filter (fun oc => oc.choice_id == r.secondary_choice_id)).map
        (fun oc => (r.secondary_choice_id, oc.category_id)))

/-- data_layer.find_choices_for_rule: the (choice_id, str_id) of every
choice belonging to the named template whose str_id is one of the two given
identifiers. -/
def findChoicesForRule (db : DB) (templateStrId a b : String) : List (Nat × String) :=
  (db.choices.filter (fun oc =>
    (oc.str_id == a || oc.str_id == b) &&
      db.categories.any (fun cat =>
        oc.category_id == cat.category_id &&
          db.templates.any (fun pt =>
            cat.template_id == pt.template_id && pt.str_id == templateStrId)))).map
    (fun oc => (oc.choice_id, oc.str_id))

/-- data_layer.insert_compatibility_rule: append the new rule row and return
its id.  The store-assigned UUID is modelled as a sequential surrogate. -/
def insertCompatibilityRule (db : DB) (ruleType : String) (primaryId secondaryId : Nat) :
    Nat × DB :=
  let newId := db.rules.length
  (newId,
    { db with rules := db.rules ++ [⟨newId, ruleType, primaryId, secondaryId⟩] })

/-- dict(row) for a row of find_target_choices: all five selected columns,
price_delta kept in its fetched Decimal representation (main.py lines 164
and 173). -/
def rowToDict (oc : ChoiceRow) : Entry :=
  [("choice_id", JVal.id oc.choice_id),
   ("str_id", JVal.s oc.str_id),
   ("name", JVal.s oc.name),
   ("price_delta", JVal.decimal oc.price_delta),
   ("category_id", JVal.id oc.category_id)]

/-- The object appended for a surviving choice (main.py line 193): three
fields, price_delta passed through float(). -/
def filteredEntry (oc : ChoiceRow) : Entry :=
  [("str_id", JVal.s oc.str_id),
   ("name", JVal.s oc.name),
   ("price_delta", JVal.float oc.price_delta)]

/-- target_choices[0].category_id (main.py line 182); only evaluated on the
branch where the target choice list is non-empty. -/
def targetCategoryIdOf (targetChoices : List ChoiceRow) : Nat :=
  ((targetChoices.head?).map ChoiceRow.category_id).getD 0

/-- required_in_target_category (main.py line 183): the required secondary
choice ids whose category is the target category. -/
def requiredInTargetCat (db : DB) (selected : List Nat) (catId : Nat) : List Nat :=
  ((findRequiredChoices db selected).filter (fun p => p.2 == catId)).map Prod.fst

/-- The per-choice guard of the filtering loop (main.py lines 186 to 192):
keep a choice unless it is incompatible, and, when the required whitelist
is non-empty, unless it is outside the whitelist. -/
def survives (incompat required : List Nat) (oc : ChoiceRow) : Bool :=
  !(incompat.contains oc.choice_id) &&
    (required.isEmpty || required.contains oc.choice_id)

/-- The choices that survive the rule filtering on the constrained branch of
get_available_options. -/
def constrainedSurvivors (db : DB) (selected : List Nat) (targetChoices : List ChoiceRow) :
    List ChoiceRow :=
  targetChoices.filter
    (survives (findIncompatibleUuids db selected)
      (requiredInTargetCat db selected (targetCategoryIdOf targetChoices)))

/-- One event on the database connection: executing a statement, or the
commit that execute_query (db.py line 37) performs after each statement. -/
inductive DbEvent where
  | exec (stmt : String)
  | commit
  deriving DecidableEq

/-- Result of get_available_options: the JSON body and the trace of database
events produced while computing it. -/
structure GaoOut where
  result : List Entry
  trace : List DbEvent
  deriving DecidableEq

/-- main.get_available_options (main.py lines 141 to 198). -/
def getAvailableOptions (db : DB) (templateStrId targetCategoryStrId : String)
    (currentSelections : List (String × String)) : GaoOut :=
  let targetChoices := findTargetChoices db templateStrId targetCategoryStrId
  let trace1 := [DbEvent.exec "find_target_choices", DbEvent.commit]
  if targetChoices.isEmpty then
    { result := [], trace := trace1 }
  else if currentSelections.isEmpty then
    { result := targetChoices.map rowToDict, trace := trace1 }
  else
    let selectedUuids := findSelectedChoiceUuids db currentSelections
    let trace2 := trace1 ++ [DbEvent.exec "find_selected_choice_uuids", DbEvent.commit]
    if selectedUuids.isEmpty then
      { result := targetChoices.map rowToDict, trace := trace2 }
    else
      { result := (constrainedSurvivors db selectedUuids targetChoices).map filteredEntry,
        trace := trace2 ++ [DbEvent.exec "find_incompatible_uuids", DbEvent.commit,
          DbEvent.exec "find_required_choices", DbEvent.commit] }

/-- Outcome of create_compatibility_rule, by HTTP status class: badRequest
is a 400 caller input error, refError the 404 reference error, created the
201 success, keyErr the uncaught Python KeyError raised when the fetched
choice map lacks one of the requested str_ids. -/
inductive RuleResponse where
  | badRequest
  | refError
  | created (ruleId : Nat)
  | keyErr (key : String)
  deriving DecidableEq

/-- Result of create_compatibility_rule: the response, the resulting store
state and the trace of database events. -/
structure RuleOut where
  resp : RuleResponse
  db : DB
  trace : List DbEvent
  deriving DecidableEq

/-- Lookup in the dict built by the comprehension over the fetched rows
(main.py line 113): later rows overwrite earlier ones, so the lookup
returns the last row whose str_id matches the key, and fails when no row
matches (Python KeyError). -/
def choiceMapLookup (rows : List (Nat × String)) (k : String) : Option Nat :=
  (rows.reverse.find? (fun r => r.2 == k)).map Prod.fst

/-- main.create_compatibility_rule (main.py lines 86 to 124), starting after
the required-field presence check: rule_type and self-reference validation,
the scoped two-row lookup, the str_id to id mapping, and the insert. -/
def createCompatibilityRule (db : DB) (templateStrId ruleType primaryStrId secondaryStrId : String) :
    RuleOut :=
  if !(ruleType == "REQUIRES" || ruleType == "INCOMPATIBLE_WITH") then
    { resp := RuleResponse.badRequest, db := db, trace := [] }
  else if primaryStrId == secondaryStrId then
    { resp := RuleResponse.badRequest, db := db, trace := [] }
  else
    let rows := findChoicesForRule db templateStrId primaryStrId secondaryStrId
    let trace1 := [DbEvent.exec "find_choices_for_rule", DbEvent.commit]
    if rows.length != 2 then
      { resp := RuleResponse.refError, db := db, trace := trace1 }
    else
      match choiceMapLookup rows primaryStrId with
      | none => { resp := RuleResponse.keyErr primaryStrId, db := db, trace := trace1 }
      | some primaryId =>
        match choiceMapLookup rows secondaryStrId with
        | none => { resp := RuleResponse.keyErr secondaryStrId, db := db, trace := trace1 }
        | some secondaryId =>
          let inserted := insertCompatibilityRule db ruleType primaryId secondaryId
          { resp := RuleResponse.created inserted.1,
            db := inserted.2,
            trace := trace1 ++ [DbEvent.exec "insert_compatibility_rule", DbEvent.commit] }

/-- Number of commit events in a trace: the number of separate transactions
the operation ran. -/
def commitCount : List DbEvent → Nat
  | [] => 0
  | DbEvent.commit :: rest => commitCount rest + 1
  | DbEvent.exec _ :: rest => commitCount rest

/-- Claim-side predicate, following the claim wording: the string identifier
resolves to at least one choice belonging to the named template. -/
def resolvesInTemplate (db : DB) (templateStrId sid : String) : Bool :=
  db.choices.any (fun oc =>
    oc.str_id == sid &&
      db.categories.any (fun cat =>
        oc.category_id == cat.category_id &&
          db.templates.any (fun pt =>
            cat.template_id == pt.template_id && pt.str_id == templateStrId)))

/-- Number of choices of the named template carrying the given str_id. -/
def matchCount (db : DB) (templateStrId sid : String) : Nat :=
  (db.choices.filter (fun oc =>
    oc.str_id == sid &&
      db.categories.any (fun cat =>
        oc.category_id == cat.category_id &&
          db.templates.any (fun pt =>
            cat.template_id == pt.template_id && pt.str_id == templateStrId)))).length

/-- Claim-side predicate: some choice of the named template lies in a
category with str_id catS and itself has str_id choS. -/
def pairInTemplate (db : DB) (templateStrId catS choS : String) : Bool :=
  db.choices.any (fun oc =>
    oc.str_id == choS &&
      db.categories.any (fun cat =>
        oc.category_id == cat.category_id && cat.str_id == catS &&
          db.templates.any (fun pt =>
            cat.template_id == pt.template_id && pt.str_id == templateStrId)))

/-- Shape of an entry on the constrained branch: exactly the three fields
str_id, name, price_delta, with price_delta a binary float. -/
def entryFilteredShape : Entry → Bool
  | [(k1, JVal.s _), (k2, JVal.s _), (k3, JVal.float _)] =>
    k1 == "str_id" && k2 == "name" && k3 == "price_delta"
  | _ => false

/-- Shape of an entry on the short-circuit branches: the five fetched
columns with price_delta still in Decimal representation. -/
def entryFullRowShape : Entry → Bool
  | [(k1, JVal.id _), (k2, JVal.s _), (k3, JVal.s _), (k4, JVal.decimal _), (k5, JVal.id _)] =>
    k1 == "choice_id" && k2 == "str_id" && k3 == "name" &&
      k4 == "price_delta" && k5 == "category_id"
  | _ => false

/-- The output shape asserted by the spec wording: exactly the three fields
str_id, name, price_delta with price_delta in a fixed-point/decimal
representation, never a binary float. -/
def entrySpecShape : Entry → Bool
  | [(k1, JVal.s _), (k2, JVal.s _), (k3, JVal.decimal _)] =>
    k1 == "str_id" && k2 == "name" && k3 == "price_delta"
  | _ => false

/-- True exactly on the 400 caller input error response. -/
def isBadRequest : RuleResponse → Bool
  | RuleResponse.badRequest => true
  | _ => false

/-- True exactly on the 201 created response. -/
def isCreated : RuleResponse → Bool
  | RuleResponse.created _ => true
  | _ => false

/-! ### Concrete sample stores used by the claim witnesses and counterexamples -/

/-- Claim C1 witness: a concrete store where selecting red, with rule
REQUIRES(red, L) into category size, yields exactly the entry for L. -/
def dbC1 : DB :=
  { templates := [⟨1, "t1", "T one", 100⟩],
    categories := [⟨101, 1, "color", "Color"⟩, ⟨102, 1, "size", "Size"⟩],
    choices := [⟨11, 101, "red", "Red", 0⟩,
                ⟨21, 102, "S", "Small", 0⟩, ⟨22, 102, "L", "Large", 5⟩],
    rules := [⟨0, "REQUIRES", 11, 22⟩] }

/-- Claim C2 witness: with rule INCOMPATIBLE_WITH(red, L) and red selected,
the size category result excludes L. -/
def dbC2 : DB :=
  { templates := [⟨1, "t1", "T one", 100⟩],
    categories := [⟨101, 1, "color", "Color"⟩, ⟨102, 1, "size", "Size"⟩],
    choices := [⟨11, 101, "red", "Red", 0⟩,
                ⟨21, 102, "S", "Small", 0⟩, ⟨22, 102, "L", "Large", 5⟩],
    rules := [⟨0, "INCOMPATIBLE_WITH", 11, 22⟩] }

/-- Claim C3 witness: red both requires L and is incompatible with L; L is
excluded (here the whole size category empties, since the whitelist
contains only L). -/
def dbC3 : DB :=
  { templates := [⟨1, "t1", "T one", 100⟩],
    categories := [⟨101, 1, "color", "Color"⟩, ⟨102, 1, "size", "Size"⟩],
    choices := [⟨11, 101, "red", "Red", 0⟩,
                ⟨21, 102, "S", "Small", 0⟩, ⟨22, 102, "L", "Large", 5⟩],
    rules := [⟨0, "INCOMPATIBLE_WITH", 11, 22⟩, ⟨1, "REQUIRES", 11, 22⟩] }

/-- Claim C4 witness: a selection naming a nonexistent pair resolves to
nothing and the full size list comes back. -/
def dbC4 : DB :=
  { templates := [⟨1, "t1", "T one", 100⟩],
    categories := [⟨101, 1, "color", "Color"⟩, ⟨102, 1, "size", "Size"⟩],
    choices := [⟨11, 101, "red", "Red", 0⟩,
                ⟨21, 102, "S", "Small", 0⟩, ⟨22, 102, "L", "Large", 5⟩],
    rules := [⟨0, "INCOMPATIBLE_WITH", 11, 22⟩] }

/-- Claim C5 counterexample: a concrete store on which the asserted uniform
output shape (exactly str_id, name, price_delta with a fixed-point price)
fails on both paths: the no-selection path returns full five-column rows
with Decimal prices, and the constrained path coerces price_delta through
float(). -/
def dbC5 : DB :=
  { templates := [⟨1, "t1", "T one", 100⟩],
    categories := [⟨101, 1, "color", "Color"⟩, ⟨102, 1, "size", "Size"⟩],
    choices := [⟨11, 101, "red", "Red", 0⟩,
                ⟨21, 102, "S", "Small", 0⟩, ⟨22, 102, "L", "Large", 5⟩],
    rules := [⟨0, "INCOMPATIBLE_WITH", 11, 22⟩] }

/-- Claim C6 witness: a template whose size category exists but holds no
choices gives the empty result even under a resolvable selection. -/
def dbC6 : DB :=
  { templates := [⟨1, "t1", "T one", 100⟩],
    categories := [⟨101, 1, "color", "Color"⟩, ⟨102, 1, "size", "Size"⟩],
    choices := [⟨11, 101, "red", "Red", 0⟩],
    rules := [] }

/-- Claim C7 counterexample: in template t1 the choice str_id X occurs in
two different categories (legal, since choice str_ids are only unique per
category) and Y occurs once.  Both X and Y resolve to choices of t1, yet
the admission check fails with the Reference Error because the scoped
lookup returns three rows, and no rule is inserted. -/
def dbC7 : DB :=
  { templates := [⟨1, "t1", "T one", 100⟩],
    categories := [⟨101, 1, "c1", "C one"⟩, ⟨102, 1, "c2", "C two"⟩,
                   ⟨103, 1, "c3", "C three"⟩],
    choices := [⟨11, 101, "X", "X in c1", 0⟩, ⟨12, 102, "X", "X in c2", 0⟩,
                ⟨13, 103, "Y", "Y in c3", 0⟩],
    rules := [] }

/-- Claim C7 amended witness: a well-formed request on a store where both
str_ids resolve uniquely in the template. -/
def dbC7w : DB :=
  { templates := [⟨1, "t1", "T one", 100⟩],
    categories := [⟨101, 1, "c1", "C one"⟩, ⟨102, 1, "c2", "C two"⟩],
    choices := [⟨11, 101, "A", "A choice", 0⟩, ⟨12, 102, "B", "B choice", 0⟩],
    rules := [] }

/-- Claim C8 witness: a self-referential rule request on a concrete store is
rejected with no storage event. -/
def dbC8 : DB :=
  { templates := [⟨1, "t1", "T one", 100⟩],
    categories := [⟨101, 1, "c1", "C one"⟩],
    choices := [⟨11, 101, "A", "A choice", 0⟩],
    rules := [] }

/-- Claim C9: selection resolution is global, not template scoped.  On this
store the pair (fcolor, fred) exists only in template t2, yet a request for
template t1 resolves it to the t2 choice id 31, and the INCOMPATIBLE_WITH
rule anchored at that foreign choice then removes L from the t1 size
result, which would have contained both S and L under an empty
selection. -/
def dbC9 : DB :=
  { templates := [⟨1, "t1", "T one", 100⟩, ⟨2, "t2", "T two", 200⟩],
    categories := [⟨101, 1, "size", "Size"⟩, ⟨201, 2, "fcolor", "Foreign Color"⟩],
    choices := [⟨21, 101, "S", "Small", 0⟩, ⟨22, 101, "L", "Large", 5⟩,
                ⟨31, 201, "fred", "Foreign Red", 0⟩],
    rules := [⟨0, "INCOMPATIBLE_WITH", 31, 22⟩] }

/-- Claim C10 counterexample: a successful rule creation runs two separate
transactions (the validation read commits before the insert executes), and
a constrained evaluation of the options endpoint runs four, one per read;
neither operation is a single transaction or a single snapshot. -/
def dbC10 : DB :=
  { templates := [⟨1, "t1", "T one", 100⟩],
    categories := [⟨101, 1, "c1", "C one"⟩, ⟨102, 1, "c2", "C two"⟩],
    choices := [⟨11, 101, "A", "A choice", 0⟩, ⟨12, 102, "B", "B choice", 0⟩],
    rules := [] }

/-! ### Branch characterizations of getAvailableOptions -/

theorem gao_empty_branch (db : DB) (tS cS : String) (sels : List (String × String))
    (h : findTargetChoices db tS cS = []) :
    getAvailableOptions db tS cS sels =
      { result := [], trace := [DbEvent.exec "find_target_choices", DbEvent.commit] } := by
  simp only [getAvailableOptions, h, List.isEmpty_nil, if_true]

theorem gao_noselection_branch (db : DB) (tS cS : String) (first : ChoiceRow)
    (rest : List ChoiceRow) (h : findTargetChoices db tS cS = first :: rest) :
    getAvailableOptions db tS cS [] =
      { result := (first :: rest).map rowToDict,
        trace := [DbEvent.exec "find_target_choices", DbEvent.commit] } := by
  simp only [getAvailableOptions, h, List.isEmpty_cons, List.isEmpty_nil, if_false, if_true,
    Bool.false_eq_true]

theorem gao_unresolved_branch (db : DB) (tS cS : String) (first : ChoiceRow)
    (rest : List ChoiceRow) (sels : List (String × String))
    (h : findTargetChoices db tS cS = first :: rest)
    (h2 : sels ≠ [])
    (h3 : findSelectedChoiceUuids db sels = []) :
    getAvailableOptions db tS cS sels =
      { result := (first :: rest).map rowToDict,
        trace := [DbEvent.exec "find_target_choices", DbEvent.commit,
          DbEvent.exec "find_selected_choice_uuids", DbEvent.commit] } := by
  obtain ⟨p, ps, rfl⟩ := List.exists_cons_of_ne_nil h2
  simp only [getAvailableOptions, h, h3, List.isEmpty_cons, List.isEmpty_nil, if_false, if_true,
    Bool.false_eq_true]
  rfl

theorem gao_constrained_branch (db : DB) (tS cS : String) (first : ChoiceRow)
    (rest : List ChoiceRow) (sels : List (String × String))
    (h : findTargetChoices db tS cS = first :: rest)
    (h2 : sels ≠ [])
    (h3 : findSelectedChoiceUuids db sels ≠ []) :
    getAvailableOptions db tS cS sels =
      { result := (constrainedSurvivors db (findSelectedChoiceUuids db sels)
          (first :: rest)).map filteredEntry,
        trace := [DbEvent.exec "find_target_choices", DbEvent.commit,
          DbEvent.exec "find_selected_choice_uuids", DbEvent.commit,
          DbEvent.exec "find_incompatible_uuids", DbEvent.commit,
          DbEvent.exec "find_required_choices", DbEvent.commit] } := by
  obtain ⟨p, ps, rfl⟩ := List.exists_cons_of_ne_nil h2
  obtain ⟨u, us, hu⟩ := List.exists_cons_of_ne_nil h3
  simp only [getAvailableOptions, h, hu, List.isEmpty_cons, List.isEmpty_nil, if_false, if_true,
    Bool.false_eq_true]
  rfl

/-! ### Membership lemmas for the rule queries -/

theorem secondary_mem_incompatible (db : DB) (selected : List Nat) (rule : RuleRow)
    (h1 : rule ∈ db.rules) (h2 : rule.rule_type = "INCOMPATIBLE_WITH")
    (h3 : selected.contains rule.primary_choice_id = true) :
    rule.secondary_choice_id ∈ findIncompatibleUuids db selected := by
  unfold findIncompatibleUuids
  rw [List.mem_append]
  right
  rw [List.mem_map]
  refine ⟨rule, ?_, rfl⟩
  rw [List.mem_filter]
  rw [Bool.and_eq_true]
  exact ⟨h1, ⟨by simp [h2], h3⟩⟩

theorem primary_mem_incompatible (db : DB) (selected : List Nat) (rule : RuleRow)
    (h1 : rule ∈ db.rules) (h2 : rule.rule_type = "INCOMPATIBLE_WITH")
    (h3 : selected.contains rule.secondary_choice_id = true) :
    rule.primary_choice_id ∈ findIncompatibleUuids db selected := by
  unfold findIncompatibleUuids
  rw [List.mem_append]
  left
  rw [List.mem_map]
  refine ⟨rule, ?_, rfl⟩
  rw [List.mem_filter]
  rw [Bool.and_eq_true]
  exact ⟨h1, ⟨by simp [h2], h3⟩⟩

theorem survivors_exclude_incompatible (inc req : List Nat) (l : List ChoiceRow) (x : Nat)
    (hx : x ∈ inc) :
    (l.filter (survives inc req)).all (fun ch => ch.choice_id != x) = true := by
  rw [List.all_eq_true]
  intro ch hch
  rw [List.mem_filter] at hch
  have hs := hch.2
  unfold survives at hs
  rw [Bool.and_eq_true] at hs
  have hninc := hs.1
  rw [Bool.not_eq_true'] at hninc
  rw [bne_iff_ne]
  intro hEq
  rw [hEq] at hninc
  have : inc.contains x = true := List.elem_eq_true_of_mem hx
  rw [this] at hninc
  exact Bool.noConfusion hninc

/-! ### Claim theorems -/

/-- Claim C1: on the constrained evaluation branch, when the set of REQUIRES
targets inside the target category is non-empty, the result consists of
exactly the target category choices that are in that required set and not
in the incompatible set, each rendered by the surviving-entry shape. -/
theorem c1_requirement_whitelist (db : DB) (tS cS : String)
    (sels : List (String × String)) (first : ChoiceRow) (rest : List ChoiceRow)
    (h1 : findTargetChoices db tS cS = first :: rest)
    (h2 : sels ≠ [])
    (h3 : findSelectedChoiceUuids db sels ≠ [])
    (h4 : requiredInTargetCat db (findSelectedChoiceUuids db sels)
      (targetCategoryIdOf (findTargetChoices db tS cS)) ≠ []) :
    (getAvailableOptions db tS cS sels).result =
      ((findTargetChoices db tS cS).filter (fun ch =>
        !((findIncompatibleUuids db (findSelectedChoiceUuids db sels)).contains ch.choice_id) &&
          (requiredInTargetCat db (findSelectedChoiceUuids db sels)
            (targetCategoryIdOf (findTargetChoices db tS cS))).contains ch.choice_id)).map
        filteredEntry := by
  rw [gao_constrained_branch db tS cS first rest sels h1 h2 h3]
  rw [h1] at h4 ⊢
  unfold constrainedSurvivors
  dsimp only
  congr 1
  apply List.filter_congr
  intro ch _
  unfold survives
  obtain ⟨q, qs, hq⟩ := List.exists_cons_of_ne_nil h4
  rw [hq, List.isEmpty_cons, Bool.false_or]

theorem c1_requirement_whitelist_witness :
    (getAvailableOptions dbC1 "t1" "size" [("color", "red")]).result =
      ((findTargetChoices dbC1 "t1" "size").filter (fun ch =>
        !((findIncompatibleUuids dbC1
            (findSelectedChoiceUuids dbC1 [("color", "red")])).contains ch.choice_id) &&
          (requiredInTargetCat dbC1 (findSelectedChoiceUuids dbC1 [("color", "red")])
            (targetCategoryIdOf (findTargetChoices dbC1 "t1" "size"))).contains
            ch.choice_id)).map filteredEntry :=
  c1_requirement_whitelist dbC1 "t1" "size" [("color", "red")]
    ⟨21, 102, "S", "Small", 0⟩ [⟨22, 102, "L", "Large", 5⟩]
    (by decide) (by decide) (by decide) (by decide)

/-- Claim C2: incompatibility is evaluated symmetrically.  For an
INCOMPATIBLE_WITH rule, whenever its primary endpoint is among the resolved
selected ids the secondary endpoint survives nowhere in the result, and
symmetrically with the endpoints swapped; the result is the surviving
choices rendered entry by entry. -/
theorem c2_symmetric_incompatibility (db : DB) (tS cS : String)
    (sels : List (String × String)) (rule : RuleRow) (first : ChoiceRow)
    (rest : List ChoiceRow)
    (h1 : findTargetChoices db tS cS = first :: rest)
    (h2 : sels ≠ [])
    (h3 : findSelectedChoiceUuids db sels ≠ [])
    (h4 : rule ∈ db.rules)
    (h5 : rule.rule_type = "INCOMPATIBLE_WITH") :
    (getAvailableOptions db tS cS sels).result =
      (constrainedSurvivors db (findSelectedChoiceUuids db sels)
        (findTargetChoices db tS cS)).map filteredEntry
    ∧ ((findSelectedChoiceUuids db sels).contains rule.primary_choice_id = true →
        (constrainedSurvivors db (findSelectedChoiceUuids db sels)
          (findTargetChoices db tS cS)).all
          (fun ch => ch.choice_id != rule.secondary_choice_id) = true)
    ∧ ((findSelectedChoiceUuids db sels).contains rule.secondary_choice_id = true →
        (constrainedSurvivors db (findSelectedChoiceUuids db sels)
          (findTargetChoices db tS cS)).all
          (fun ch => ch.choice_id != rule.primary_choice_id) = true) := by
  refine ⟨?_, ?_, ?_⟩
  · rw [gao_constrained_branch db tS cS first rest sels h1 h2 h3, h1]
  · intro hsel
    unfold constrainedSurvivors
    exact survivors_exclude_incompatible _ _ _ _
      (secondary_mem_incompatible db _ rule h4 h5 hsel)
  · intro hsel
    unfold constrainedSurvivors
    exact survivors_exclude_incompatible _ _ _ _
      (primary_mem_incompatible db _ rule h4 h5 hsel)

theorem c2_symmetric_incompatibility_witness :
    (getAvailableOptions dbC2 "t1" "size" [("color", "red")]).result =
      (constrainedSurvivors dbC2 (findSelectedChoiceUuids dbC2 [("color", "red")])
        (findTargetChoices dbC2 "t1" "size")).map filteredEntry
    ∧ ((findSelectedChoiceUuids dbC2 [("color", "red")]).contains
          (RuleRow.primary_choice_id ⟨0, "INCOMPATIBLE_WITH", 11, 22⟩) = true →
        (constrainedSurvivors dbC2 (findSelectedChoiceUuids dbC2 [("color", "red")])
          (findTargetChoices dbC2 "t1" "size")).all
          (fun ch => ch.choice_id !=
            (RuleRow.secondary_choice_id ⟨0, "INCOMPATIBLE_WITH", 11, 22⟩)) = true)
    ∧ ((findSelectedChoiceUuids dbC2 [("color", "red")]).contains
          (RuleRow.secondary_choice_id ⟨0, "INCOMPATIBLE_WITH", 11, 22⟩) = true →
        (constrainedSurvivors dbC2 (findSelectedChoiceUuids dbC2 [("color", "red")])
          (findTargetChoices dbC2 "t1" "size")).all
          (fun ch => ch.choice_id !=
            (RuleRow.primary_choice_id ⟨0, "INCOMPATIBLE_WITH", 11, 22⟩)) = true) :=
  c2_symmetric_incompatibility dbC2 "t1" "size" [("color", "red")]
    ⟨0, "INCOMPATIBLE_WITH", 11, 22⟩ ⟨21, 102, "S", "Small", 0⟩
    [⟨22, 102, "L", "Large", 5⟩] (by decide) (by decide) (by decide) (by decide) rfl

/-- Claim C3: a target choice whose id is both in the incompatible set and
in the required-in-target-category set never survives: incompatibility
wins. -/
theorem c3_incompatibility_precedence (db : DB) (tS cS : String)
    (sels : List (String × String)) (first ch : ChoiceRow) (rest : List ChoiceRow)
    (h1 : findTargetChoices db tS cS = first :: rest)
    (h2 : sels ≠ [])
    (h3 : findSelectedChoiceUuids db sels ≠ [])
    (hinc : (findIncompatibleUuids db (findSelectedChoiceUuids db sels)).contains
      ch.choice_id = true)
    (hreq : (requiredInTargetCat db (findSelectedChoiceUuids db sels)
      (targetCategoryIdOf (findTargetChoices db tS cS))).contains ch.choice_id = true) :
    (getAvailableOptions db tS cS sels).result =
      (constrainedSurvivors db (findSelectedChoiceUuids db sels)
        (findTargetChoices db tS cS)).map filteredEntry
    ∧ (constrainedSurvivors db (findSelectedChoiceUuids db sels)
        (findTargetChoices db tS cS)).all
        (fun c => c.choice_id != ch.choice_id) = true := by
  refine ⟨?_, ?_⟩
  · rw [gao_constrained_branch db tS cS first rest sels h1 h2 h3, h1]
  · unfold constrainedSurvivors
    apply survivors_exclude_incompatible
    exact List.mem_of_elem_eq_true hinc

/-- Every row rendered by dict(row) has the five-column full-row shape with
a Decimal price. -/
theorem rowToDict_shape (oc : ChoiceRow) : entryFullRowShape (rowToDict oc) = true := rfl

/-- Every surviving-choice object has the three-field shape with a binary
float price. -/
theorem filteredEntry_shape (oc : ChoiceRow) : entryFilteredShape (filteredEntry oc) = true := rfl

/-- Claim C4: with a non-empty target choice list, an empty selection and a
non-empty selection none of whose entries resolves both give back the full
fetched choice list, with no error. -/
theorem c4_noselection_identity (db : DB) (tS cS : String)
    (sels : List (String × String)) (first : ChoiceRow) (rest : List ChoiceRow)
    (h1 : findTargetChoices db tS cS = first :: rest)
    (hs : sels = [] ∨ findSelectedChoiceUuids db sels = []) :
    (getAvailableOptions db tS cS sels).result =
      (findTargetChoices db tS cS).map rowToDict := by
  rcases hs with hs | hs
  · subst hs
    rw [gao_noselection_branch db tS cS first rest h1, h1]
  · by_cases hnil : sels = []
    · subst hnil
      rw [gao_noselection_branch db tS cS first rest h1, h1]
    · rw [gao_unresolved_branch db tS cS first rest sels h1 hnil hs, h1]

theorem c4_noselection_identity_witness :
    (getAvailableOptions dbC4 "t1" "size" [("ghost", "none")]).result =
      (findTargetChoices dbC4 "t1" "size").map rowToDict :=
  c4_noselection_identity dbC4 "t1" "size" [("ghost", "none")]
    ⟨21, 102, "S", "Small", 0⟩ [⟨22, 102, "L", "Large", 5⟩] (by decide) (by decide)

theorem c5_output_shape_counterexample :
    (getAvailableOptions dbC5 "t1" "size" []).result.all entrySpecShape = false
    ∧ (getAvailableOptions dbC5 "t1" "size" [("color", "red")]).result.all
        entrySpecShape = false
    ∧ (getAvailableOptions dbC5 "t1" "size" [("color", "red")]).result =
        [[("str_id", JVal.s "S"), ("name", JVal.s "Small"),
          ("price_delta", JVal.float 0)]] := by
  decide

/-- Claim C5 as amended: on the constrained branch (selsR, a selection
that resolves to at least one id) every returned entry has exactly the
fields str_id, name, price_delta with price_delta coerced to a binary
float, while on the empty-selection branch and on the
unresolvable-selection branch (selsU, a non-empty selection none of whose
entries resolves) every returned entry is a full fetched row carrying
choice_id, str_id, name, price_delta (still Decimal) and category_id. -/
theorem c5_output_shape_amended (db : DB) (tS cS : String)
    (selsR selsU : List (String × String)) (first : ChoiceRow) (rest : List ChoiceRow)
    (h1 : findTargetChoices db tS cS = first :: rest)
    (h2 : selsR ≠ [])
    (h3 : findSelectedChoiceUuids db selsR ≠ [])
    (h4 : selsU ≠ [])
    (h5 : findSelectedChoiceUuids db selsU = []) :
    (getAvailableOptions db tS cS []).result.all entryFullRowShape = true
    ∧ (getAvailableOptions db tS cS selsU).result.all entryFullRowShape = true
    ∧ (getAvailableOptions db tS cS selsR).result.all entryFilteredShape = true := by
  refine ⟨?_, ?_, ?_⟩
  · rw [gao_noselection_branch db tS cS first rest h1]
    rw [List.all_eq_true]
    intro e he
    rw [List.mem_map] at he
    obtain ⟨oc, _, rfl⟩ := he
    exact rowToDict_shape oc
  · rw [gao_unresolved_branch db tS cS first rest selsU h1 h4 h5]
    rw [List.all_eq_true]
    intro e he
    rw [List.mem_map] at he
    obtain ⟨oc, _, rfl⟩ := he
    exact rowToDict_shape oc
  · rw [gao_constrained_branch db tS cS first rest selsR h1 h2 h3]
    rw [List.all_eq_true]
    intro e he
    rw [List.mem_map] at he
    obtain ⟨oc, _, rfl⟩ := he
    exact filteredEntry_shape oc

theorem c5_output_shape_amended_witness :
    (getAvailableOptions dbC5 "t1" "size" []).result.all entryFullRowShape = true
    ∧ (getAvailableOptions dbC5 "t1" "size" [("ghost", "none")]).result.all
        entryFullRowShape = true
    ∧ (getAvailableOptions dbC5 "t1" "size" [("color", "red")]).result.all
        entryFilteredShape = true :=
  c5_output_shape_amended dbC5 "t1" "size" [("color", "red")] [("ghost", "none")]
    ⟨21, 102, "S", "Small", 0⟩ [⟨22, 102, "L", "Large", 5⟩]
    (by decide) (by decide) (by decide) (by decide) (by decide)

/-- Claim C6: whenever the fetch of the target category choices comes back
empty, for any selection whatsoever, the evaluation returns the empty list;
the function is total, so no not-found error is raised, and nothing but the
emptiness of the fetched list enters the decision, making the three causes
of emptiness observationally indistinguishable. -/
theorem c6_empty_category_invariance (db : DB) (tS cS : String)
    (sels : List (String × String))
    (h : findTargetChoices db tS cS = []) :
    (getAvailableOptions db tS cS sels).result = [] := by
  rw [gao_empty_branch db tS cS sels h]

theorem c6_empty_category_invariance_witness :
    (getAvailableOptions dbC6 "t1" "size" [("color", "red")]).result = [] :=
  c6_empty_category_invariance dbC6 "t1" "size" [("color", "red")] (by decide)

theorem c3_incompatibility_precedence_witness :
    (getAvailableOptions dbC3 "t1" "size" [("color", "red")]).result =
      (constrainedSurvivors dbC3 (findSelectedChoiceUuids dbC3 [("color", "red")])
        (findTargetChoices dbC3 "t1" "size")).map filteredEntry
    ∧ (constrainedSurvivors dbC3 (findSelectedChoiceUuids dbC3 [("color", "red")])
        (findTargetChoices dbC3 "t1" "size")).all
        (fun c => c.choice_id != (ChoiceRow.choice_id ⟨22, 102, "L", "Large", 5⟩)) = true :=
  c3_incompatibility_precedence dbC3 "t1" "size" [("color", "red")]
    ⟨21, 102, "S", "Small", 0⟩ ⟨22, 102, "L", "Large", 5⟩
    [⟨22, 102, "L", "Large", 5⟩] (by decide) (by decide) (by decide) (by decide) (by decide)

/-! ### Lemmas for the rule admission check -/

theorem length_filter_or_split (a b : String) (hab : a ≠ b) (Q : ChoiceRow → Bool)
    (l : List ChoiceRow) :
    (l.filter (fun oc => (oc.str_id == a || oc.str_id == b) && Q oc)).length =
      (l.filter (fun oc => oc.str_id == a && Q oc)).length +
        (l.filter (fun oc => oc.str_id == b && Q oc)).length := by
  induction l with
  | nil => rfl
  | cons oc tl ih =>
    simp only [List.filter_cons]
    by_cases hA : oc.str_id = a
    · have hB : oc.str_id ≠ b := by rw [hA]; exact hab
      by_cases hQ : Q oc = true
      · simp only [hA, hB, hQ]
        simp [hab, Ne.symm hab, ih, Nat.add_right_comm]
      · simp [hA, hB, hQ, ih, hab, Ne.symm hab]
    · by_cases hB : oc.str_id = b
      · by_cases hQ : Q oc = true
        · simp only [hA, hB, hQ]
          simp [hab, Ne.symm hab, ih]
          omega
        · simp [hA, hB, hQ, ih, hab, Ne.symm hab]
      · simp [hA, hB, ih]

theorem matchCount_pos_iff (db : DB) (tS k : String) :
    0 < matchCount db tS k ↔
      ∃ oc ∈ db.choices, oc.str_id = k ∧
        db.categories.any (fun cat =>
          oc.category_id == cat.category_id &&
            db.templates.any (fun pt =>
              cat.template_id == pt.template_id && pt.str_id == tS)) = true := by
  unfold matchCount
  rw [List.length_pos_iff_exists_mem]
  constructor
  · rintro ⟨oc, hoc⟩
    rw [List.mem_filter, Bool.and_eq_true, beq_iff_eq] at hoc
    exact ⟨oc, hoc.1, hoc.2.1, hoc.2.2⟩
  · rintro ⟨oc, hmem, hstr, hq⟩
    refine ⟨oc, ?_⟩
    rw [List.mem_filter, Bool.and_eq_true, beq_iff_eq]
    exact ⟨hmem, hstr, hq⟩

theorem findChoicesForRule_length (db : DB) (tS a b : String) (hab : a ≠ b) :
    (findChoicesForRule db tS a b).length = matchCount db tS a + matchCount db tS b := by
  unfold findChoicesForRule
  rw [List.length_map]
  exact length_filter_or_split a b hab _ db.choices

theorem lookup_isSome_iff (db : DB) (tS a b k : String) (hk : k = a ∨ k = b) :
    (choiceMapLookup (findChoicesForRule db tS a b) k).isSome = true ↔
      0 < matchCount db tS k := by
  rw [matchCount_pos_iff]
  unfold choiceMapLookup findChoicesForRule
  rw [Option.isSome_map']
  rw [List.find?_isSome]
  constructor
  · rintro ⟨r, hr, hrk⟩
    rw [List.mem_reverse, List.mem_map] at hr
    obtain ⟨oc, hoc, rfl⟩ := hr
    rw [List.mem_filter, Bool.and_eq_true] at hoc
    rw [beq_iff_eq] at hrk
    exact ⟨oc, hoc.1, hrk, hoc.2.2⟩
  · rintro ⟨oc, hmem, hstr, hq⟩
    refine ⟨(oc.choice_id, oc.str_id), ?_, by rw [beq_iff_eq]; exact hstr⟩
    rw [List.mem_reverse, List.mem_map]
    refine ⟨oc, ?_, rfl⟩
    rw [List.mem_filter, Bool.and_eq_true, Bool.or_eq_true]
    refine ⟨hmem, ?_, hq⟩
    rcases hk with rfl | rfl
    · left; rw [beq_iff_eq]; exact hstr
    · right; rw [beq_iff_eq]; exact hstr

theorem choiceMapLookup_some_mem (db : DB) (tS a b k : String) (pid : Nat)
    (h : choiceMapLookup (findChoicesForRule db tS a b) k = some pid) :
    ∃ oc ∈ db.choices, oc.choice_id = pid ∧ oc.str_id = k ∧
      (db.categories.any (fun cat =>
        oc.category_id == cat.category_id &&
          db.templates.any (fun pt =>
            cat.template_id == pt.template_id && pt.str_id == tS))) = true := by
  unfold choiceMapLookup findChoicesForRule at h
  rw [Option.map_eq_some'] at h
  obtain ⟨r, hr, hr1⟩ := h
  have hmem := List.mem_of_find?_eq_some hr
  have hpred := List.find?_some hr
  rw [List.mem_reverse, List.mem_map] at hmem
  obtain ⟨oc, hoc, hf⟩ := hmem
  rw [List.mem_filter, Bool.and_eq_true] at hoc
  refine ⟨oc, hoc.1, ?_, ?_, hoc.2.2⟩
  · rw [← hf] at hr1
    exact hr1
  · rw [← hf] at hpred
    rw [beq_iff_eq] at hpred
    exact hpred

theorem c7_admission_counterexample :
    (createCompatibilityRule dbC7 "t1" "REQUIRES" "X" "Y").resp = RuleResponse.refError
    ∧ resolvesInTemplate dbC7 "t1" "X" = true
    ∧ resolvesInTemplate dbC7 "t1" "Y" = true
    ∧ (createCompatibilityRule dbC7 "t1" "REQUIRES" "X" "Y").db = dbC7 := by
  decide

/-- Claim C7 as amended: for a well-formed request (valid rule_type, two
distinct str_ids), admission succeeds if and only if each of the two str_ids
matches exactly one choice belonging to the named template, and on success
exactly one rule row is appended whose endpoints are the canonical ids of
template-scoped choices carrying the primary and the secondary str_id;
whenever the scoped lookup does not return exactly two rows the request
fails with the Reference Error, and every non-success outcome leaves the
store unchanged. -/
theorem c7_admission_scoped_resolution (db : DB) (tS rt a b : String)
    (hrt : rt = "REQUIRES" ∨ rt = "INCOMPATIBLE_WITH") (hne : a ≠ b) :
    (isCreated (createCompatibilityRule db tS rt a b).resp = true ↔
      (matchCount db tS a = 1 ∧ matchCount db tS b = 1))
    ∧ ((findChoicesForRule db tS a b).length ≠ 2 →
        (createCompatibilityRule db tS rt a b).resp = RuleResponse.refError)
    ∧ (isCreated (createCompatibilityRule db tS rt a b).resp = false →
        (createCompatibilityRule db tS rt a b).db = db)
    ∧ (isCreated (createCompatibilityRule db tS rt a b).resp = true →
        ∃ pOc ∈ db.choices, ∃ sOc ∈ db.choices,
          pOc.str_id = a ∧ sOc.str_id = b ∧
          (db.categories.any (fun cat =>
            pOc.category_id == cat.category_id &&
              db.templates.any (fun pt =>
                cat.template_id == pt.template_id && pt.str_id == tS))) = true ∧
          (db.categories.any (fun cat =>
            sOc.category_id == cat.category_id &&
              db.templates.any (fun pt =>
                cat.template_id == pt.template_id && pt.str_id == tS))) = true ∧
          (createCompatibilityRule db tS rt a b).db.rules =
            db.rules ++ [⟨db.rules.length, rt, pOc.choice_id, sOc.choice_id⟩]) := by
  have cond1 : (!(rt == "REQUIRES" || rt == "INCOMPATIBLE_WITH")) = false := by
    rcases hrt with h | h <;> simp [h]
  have cond2 : (a == b) = false := by
    rw [beq_eq_false_iff_ne]
    exact hne
  have hsum := findChoicesForRule_length db tS a b hne
  have hlkA := lookup_isSome_iff db tS a b a (Or.inl rfl)
  have hlkB := lookup_isSome_iff db tS a b b (Or.inr rfl)
  simp only [createCompatibilityRule, cond1, cond2, Bool.false_eq_true, if_false]
  by_cases hlen : (findChoicesForRule db tS a b).length = 2
  · have hlen2 : ((findChoicesForRule db tS a b).length != 2) = false := by
      simp [hlen]
    simp only [hlen2, Bool.false_eq_true, if_false]
    cases hOptA : choiceMapLookup (findChoicesForRule db tS a b) a with
    | none =>
      have hA0 : ¬ 0 < matchCount db tS a := by
        rw [← hlkA, hOptA]
        simp
      simp only [isCreated]
      refine ⟨?_, ?_, ?_, ?_⟩
      · constructor
        · intro h
          exact absurd h (by simp)
        · rintro ⟨h1, _⟩
          exact absurd (by omega : 0 < matchCount db tS a) hA0
      · intro h
        exact absurd hlen h
      · intro _
        trivial
      · intro h
        exact Bool.noConfusion h
    | some pid =>
      cases hOptB : choiceMapLookup (findChoicesForRule db tS a b) b with
      | none =>
        have hB0 : ¬ 0 < matchCount db tS b := by
          rw [← hlkB, hOptB]
          simp
        simp only [isCreated]
        refine ⟨?_, ?_, ?_, ?_⟩
        · constructor
          · intro h
            exact absurd h (by simp)
          · rintro ⟨_, h2⟩
            exact absurd (by omega : 0 < matchCount db tS b) hB0
        · intro h
          exact absurd hlen h
        · intro _
          trivial
        · intro h
          exact Bool.noConfusion h
      | some sid =>
        have hApos : 0 < matchCount db tS a := by
          rw [← hlkA, hOptA]
          rfl
        have hBpos : 0 < matchCount db tS b := by
          rw [← hlkB, hOptB]
          rfl
        simp only [isCreated]
        refine ⟨?_, ?_, ?_, ?_⟩
        · constructor
          · intro _
            constructor <;> omega
          · intro _
            trivial
        · intro h
          exact absurd hlen h
        · intro h
          exact Bool.noConfusion h
        · intro _
          obtain ⟨pOc, hpm, hpc, hps, hpt⟩ :=
            choiceMapLookup_some_mem db tS a b a pid hOptA
          obtain ⟨sOc, hsm, hsc, hss, hst⟩ :=
            choiceMapLookup_some_mem db tS a b b sid hOptB
          refine ⟨pOc, hpm, sOc, hsm, hps, hss, hpt, hst, ?_⟩
          simp only [insertCompatibilityRule]
          rw [hpc, hsc]
  · have hlen2 : ((findChoicesForRule db tS a b).length != 2) = true := by
      simp [hlen]
    simp only [hlen2, if_true]
    simp only [isCreated]
    refine ⟨?_, ?_, ?_, ?_⟩
    · constructor
      · intro h
        exact absurd h (by simp)
      · rintro ⟨h1, h2⟩
        exact absurd (by omega : (findChoicesForRule db tS a b).length = 2) hlen
    · intro _
      trivial
    · intro _
      trivial
    · intro h
      exact Bool.noConfusion h

theorem c7_admission_scoped_resolution_witness :
    (isCreated (createCompatibilityRule dbC7w "t1" "REQUIRES" "A" "B").resp = true ↔
      (matchCount dbC7w "t1" "A" = 1 ∧ matchCount dbC7w "t1" "B" = 1))
    ∧ ((findChoicesForRule dbC7w "t1" "A" "B").length ≠ 2 →
        (createCompatibilityRule dbC7w "t1" "REQUIRES" "A" "B").resp =
          RuleResponse.refError)
    ∧ (isCreated (createCompatibilityRule dbC7w "t1" "REQUIRES" "A" "B").resp = false →
        (createCompatibilityRule dbC7w "t1" "REQUIRES" "A" "B").db = dbC7w)
    ∧ (isCreated (createCompatibilityRule dbC7w "t1" "REQUIRES" "A" "B").resp = true →
        ∃ pOc ∈ dbC7w.choices, ∃ sOc ∈ dbC7w.choices,
          pOc.str_id = "A" ∧ sOc.str_id = "B" ∧
          (dbC7w.categories.any (fun cat =>
            pOc.category_id == cat.category_id &&
              dbC7w.templates.any (fun pt =>
                cat.template_id == pt.template_id && pt.str_id == "t1"))) = true ∧
          (dbC7w.categories.any (fun cat =>
            sOc.category_id == cat.category_id &&
              dbC7w.templates.any (fun pt =>
                cat.template_id == pt.template_id && pt.str_id == "t1"))) = true ∧
          (createCompatibilityRule dbC7w "t1" "REQUIRES" "A" "B").db.rules =
            dbC7w.rules ++ [⟨dbC7w.rules.length, "REQUIRES", pOc.choice_id,
              sOc.choice_id⟩]) :=
  c7_admission_scoped_resolution dbC7w "t1" "REQUIRES" "A" "B" (Or.inl rfl) (by decide)

/-- Claim C8: a rule_type outside the two valid values, or equal primary and
secondary string identifiers, is rejected as a caller input error before any
storage statement runs: the trace is empty and the store unchanged. -/
theorem c8_caller_input_rejection (db : DB) (tS rt a b : String)
    (h : (rt ≠ "REQUIRES" ∧ rt ≠ "INCOMPATIBLE_WITH") ∨ a = b) :
    isBadRequest (createCompatibilityRule db tS rt a b).resp = true
    ∧ (createCompatibilityRule db tS rt a b).trace = []
    ∧ (createCompatibilityRule db tS rt a b).db = db := by
  rcases h with ⟨hr1, hr2⟩ | hab
  · have cond1 : (!(rt == "REQUIRES" || rt == "INCOMPATIBLE_WITH")) = true := by
      simp [hr1, hr2]
    simp only [createCompatibilityRule, cond1, if_true]
    refine ⟨?_, ?_, ?_⟩ <;> trivial
  · by_cases hrt : (rt == "REQUIRES" || rt == "INCOMPATIBLE_WITH") = true
    · have cond1 : (!(rt == "REQUIRES" || rt == "INCOMPATIBLE_WITH")) = false := by
        simp [hrt]
      have cond2 : (a == b) = true := by
        rw [beq_iff_eq]
        exact hab
      simp only [createCompatibilityRule, cond1, cond2, Bool.false_eq_true, if_false,
        if_true]
      refine ⟨?_, ?_, ?_⟩ <;> trivial
    · have cond1 : (!(rt == "REQUIRES" || rt == "INCOMPATIBLE_WITH")) = true := by
        have hx : (rt == "REQUIRES" || rt == "INCOMPATIBLE_WITH") = false :=
          Bool.eq_false_iff.mpr hrt
        rw [hx]
        rfl
      simp only [createCompatibilityRule, cond1, if_true]
      refine ⟨?_, ?_, ?_⟩ <;> trivial

theorem c8_caller_input_rejection_witness :
    isBadRequest (createCompatibilityRule dbC8 "t1" "REQUIRES" "A" "A").resp = true
    ∧ (createCompatibilityRule dbC8 "t1" "REQUIRES" "A" "A").trace = []
    ∧ (createCompatibilityRule dbC8 "t1" "REQUIRES" "A" "A").db = dbC8 :=
  c8_caller_input_rejection dbC8 "t1" "REQUIRES" "A" "A" (Or.inr rfl)

theorem c9_global_selection_resolution :
    pairInTemplate dbC9 "t1" "fcolor" "fred" = false
    ∧ pairInTemplate dbC9 "t2" "fcolor" "fred" = true
    ∧ findSelectedChoiceUuids dbC9 [("fcolor", "fred")] = [31]
    ∧ (getAvailableOptions dbC9 "t1" "size" []).result.length = 2
    ∧ (getAvailableOptions dbC9 "t1" "size" [("fcolor", "fred")]).result =
        [[("str_id", JVal.s "S"), ("name", JVal.s "Small"),
          ("price_delta", JVal.float 0)]] := by
  decide

theorem c10_transactionality_counterexample :
    (createCompatibilityRule dbC10 "t1" "REQUIRES" "A" "B").resp = RuleResponse.created 0
    ∧ (createCompatibilityRule dbC10 "t1" "REQUIRES" "A" "B").trace =
        [DbEvent.exec "find_choices_for_rule", DbEvent.commit,
         DbEvent.exec "insert_compatibility_rule", DbEvent.commit]
    ∧ commitCount (createCompatibilityRule dbC10 "t1" "REQUIRES" "A" "B").trace = 2
    ∧ commitCount (getAvailableOptions dbC10 "t1" "c2" [("c1", "A")]).trace = 4 := by
  decide

/-- Claim C10 as amended: execute_query commits after every statement, so a
successful rule creation commits its validation read before the insert
statement executes (two transactions), and a constrained evaluation of
available options issues its four reads in four separate transactions;
there is no single-transaction, single-snapshot discipline. -/
theorem c10_per_statement_transactions (db : DB) (tS rt a b : String) (db2 : DB)
    (tS2 cS2 : String) (sels : List (String × String)) (first : ChoiceRow)
    (rest : List ChoiceRow)
    (hrt : rt = "REQUIRES" ∨ rt = "INCOMPATIBLE_WITH")
    (hne : a ≠ b)
    (hlen : (findChoicesForRule db tS a b).length = 2)
    (hA : (choiceMapLookup (findChoicesForRule db tS a b) a).isSome = true)
    (hB : (choiceMapLookup (findChoicesForRule db tS a b) b).isSome = true)
    (h1 : findTargetChoices db2 tS2 cS2 = first :: rest)
    (h2 : sels ≠ [])
    (h3 : findSelectedChoiceUuids db2 sels ≠ []) :
    (createCompatibilityRule db tS rt a b).trace =
      [DbEvent.exec "find_choices_for_rule", DbEvent.commit,
       DbEvent.exec "insert_compatibility_rule", DbEvent.commit]
    ∧ commitCount (createCompatibilityRule db tS rt a b).trace = 2
    ∧ (getAvailableOptions db2 tS2 cS2 sels).trace =
      [DbEvent.exec "find_target_choices", DbEvent.commit,
       DbEvent.exec "find_selected_choice_uuids", DbEvent.commit,
       DbEvent.exec "find_incompatible_uuids", DbEvent.commit,
       DbEvent.exec "find_required_choices", DbEvent.commit]
    ∧ commitCount (getAvailableOptions db2 tS2 cS2 sels).trace = 4 := by
  have cond1 : (!(rt == "REQUIRES" || rt == "INCOMPATIBLE_WITH")) = false := by
    rcases hrt with h | h <;> simp [h]
  have cond2 : (a == b) = false := by
    rw [beq_eq_false_iff_ne]
    exact hne
  have hlen2 : ((findChoicesForRule db tS a b).length != 2) = false := by
    simp [hlen]
  obtain ⟨pid, hpid⟩ := Option.isSome_iff_exists.mp hA
  obtain ⟨sid, hsid⟩ := Option.isSome_iff_exists.mp hB
  have htr : (createCompatibilityRule db tS rt a b).trace =
      [DbEvent.exec "find_choices_for_rule", DbEvent.commit,
       DbEvent.exec "insert_compatibility_rule", DbEvent.commit] := by
    simp only [createCompatibilityRule, cond1, cond2, hlen2, Bool.false_eq_true, if_false,
      hpid, hsid]
    rfl
  have hgao := gao_constrained_branch db2 tS2 cS2 first rest sels h1 h2 h3
  refine ⟨htr, ?_, ?_, ?_⟩
  · rw [htr]
    rfl
  · rw [hgao]
  · rw [hgao]
    rfl

theorem c10_per_statement_transactions_witness :
    (createCompatibilityRule dbC10 "t1" "REQUIRES" "A" "B").trace =
      [DbEvent.exec "find_choices_for_rule", DbEvent.commit,
       DbEvent.exec "insert_compatibility_rule", DbEvent.commit]
    ∧ commitCount (createCompatibilityRule dbC10 "t1" "REQUIRES" "A" "B").trace = 2
    ∧ (getAvailableOptions dbC10 "t1" "c2" [("c1", "A")]).trace =
      [DbEvent.exec "find_target_choices", DbEvent.commit,
       DbEvent.exec "find_selected_choice_uuids", DbEvent.commit,
       DbEvent.exec "find_incompatible_uuids", DbEvent.commit,
       DbEvent.exec "find_required_choices", DbEvent.commit]
    ∧ commitCount (getAvailableOptions dbC10 "t1" "c2" [("c1", "A")]).trace = 4 :=
  c10_per_statement_transactions dbC10 "t1" "REQUIRES" "A" "B" dbC10 "t1" "c2"
    [("c1", "A")] ⟨12, 102, "B", "B choice", 0⟩ [] (Or.inl rfl) (by decide) (by decide)
    (by decide) (by decide) (by decide) (by decide) (by decide)

end Configurator
